import Mathlib

/-!
Verification of `operator_csv_libs/imagerepo.py`.

We shallowly embed the module: the `Image` collaborator is a record of the
four strings its getters return; each adapter method becomes a Lean function
from its inputs (credentials, cache, environment, parsed backend responses)
to `Except RepoError α`, where `RepoError` models the exception classes the
module raises.  Backend I/O (HTTP responses, artifactory stat/open results,
skopeo stdout) is passed in as explicit parameters, already parsed into the
fields the code reads, so each function is the pure control flow of the
corresponding Python method.

Python string operations (`in`, `startswith`, `split`, `replace`, truthiness)
are re-implemented over `String.data` by structural recursion so that every
definition evaluates inside the kernel.
-/

/-- Python `needle == hay[:len(needle)]`: list prefix test. -/
def isPrefixList : List Char → List Char → Bool
  | [], _ => true
  | _ :: _, [] => false
  | a :: as, b :: bs => a == b && isPrefixList as bs

/-- Python `needle in hay` for strings: infix test on char lists. -/
def isInfixList (needle : List Char) : List Char → Bool
  | [] => isPrefixList needle []
  | c :: rest => isPrefixList needle (c :: rest) || isInfixList needle rest

/-- Python `needle in hay` (substring containment). -/
def pyIn (needle hay : String) : Bool :=
  isInfixList needle.data hay.data

/-- Python `s.startswith(p)`. -/
def pyStartswith (s p : String) : Bool :=
  isPrefixList p.data s.data

/-- Python `s.split(sep)` for a single-character separator (the only form the
module uses: `'.'`, `'/'`, `' '`). -/
def splitChar (sep : Char) : List Char → List (List Char)
  | [] => [[]]
  | c :: rest =>
    if c == sep then [] :: splitChar sep rest
    else
      match splitChar sep rest with
      | [] => [[c]]
      | h :: t => (c :: h) :: t

/-- Python `s.split(sep)` lifted to `String`. -/
def pySplit (s : String) (sep : Char) : List String :=
  (splitChar sep s.data).map String.mk

/-- One pass of Python `s.replace(old, new)`: replace every non-overlapping
occurrence of `old` left to right.  Structural recursion on a fuel bound;
each step consumes at least one character when `old` is non-empty, so fuel
equal to the input length never runs out (see `replaceList_fuel_eq`). -/
def replaceList (old new : List Char) : Nat → List Char → List Char
  | 0, l => l
  | _ + 1, [] => []
  | fuel + 1, c :: rest =>
    if isPrefixList old (c :: rest) then
      new ++ replaceList old new fuel ((c :: rest).drop old.length)
    else
      c :: replaceList old new fuel rest

/-- Python `s.replace(old, new)` (all occurrences) for non-empty `old`. -/
def pyReplace (s old new : String) : String :=
  String.mk (replaceList old.data new.data s.data.length s.data)

/-- Python truthiness of an optional string (`None` and `''` are falsy). -/
def pyTruthy : Option String → Bool
  | none => false
  | some s => !s.data.isEmpty

/-- The `Image` collaborator (from `.images`), reduced to the four getters
`imagerepo.py` calls: `get_image_repo`, `get_image_name`, `get_tag`,
`get_image`. -/
structure Image where
  image_repo : String
  image_name : String
  tag : String
  image : String

/-- The exceptions `imagerepo.py` can surface.  The first four model the
classes the module defines, `genericException` models `raise Exception(...)`,
and `attributeError` models Python's `AttributeError` when a method is looked
up on a class that does not define it. -/
inductive RepoError where
  | missingCredentials (msg : String)
  | repoTypeNotImplemented (msg : String)
  | manifestListNotFound (msg : String)
  | manifestNotFound (msg : String)
  | genericException (msg : String)
  | attributeError (msg : String)
deriving DecidableEq, Repr

/-- The shared error taxonomy of the module: its four exception classes plus
the generic `Exception` carrying a backend diagnostic.  `AttributeError` is
raised by the Python runtime, not by the module, and is not part of it. -/
def isTaxonomyKind : RepoError → Bool
  | .missingCredentials _ => true
  | .repoTypeNotImplemented _ => true
  | .manifestListNotFound _ => true
  | .manifestNotFound _ => true
  | .genericException _ => true
  | .attributeError _ => false

/-- Which adapter class `ImageRepo.__init__` instantiates. -/
inductive RepoKind where
  | artifactory
  | quay
  | docker
deriving DecidableEq, Repr

/-- The branch structure of `ImageRepo.__init__` (imagerepo.py lines 13-22):
`'artifactory' in repo` is tested first, then `repo.startswith('quay.io/')`,
then `repo.startswith('docker.io')`, else `RepoTypeNotImplemented`.
Adapter-constructor side effects (Artifactory credential resolution) are
modelled separately by `ArtifactoryRepo.init`. -/
def ImageRepo.selectRepo (img : Image) : Except RepoError RepoKind :=
  if pyIn "artifactory" img.image_repo then
    .ok .artifactory
  else if pyStartswith img.image_repo "quay.io/" then
    .ok .quay
  else if pyStartswith img.image_repo "docker.io" then
    .ok .docker
  else
    .error (.repoTypeNotImplemented ("Unknown repository type for image " ++ img.image))

/-- Result of `ArtifactoryPath.stat(path).sha256`: the stored hash string on
success, or the `FileNotFoundError` text on failure. -/
abbrev ArtifactoryStat := Except String String

/-- The environment variables the Artifactory adapter reads.  `some v` models
`'KEY' in os.environ` being true with value `v` (possibly empty); `none`
models the key being absent. -/
structure ArtifactoryEnv where
  user : Option String
  key : Option String
  base : Option String

/-- The class attributes `_artifactory_user` / `_artifactory_key` /
`_artifactory_base` of `ArtifactoryRepo` (imagerepo.py lines 41-44), intended
to share credentials between instances; each starts as `None`. -/
structure ArtifactoryCache where
  _artifactory_user : Option String
  _artifactory_key : Option String
  _artifactory_base : Option String

/-- The credentials an `ArtifactoryRepo` instance holds after `__init__`. -/
structure ArtifactoryCreds where
  artifactory_user : String
  artifactory_key : String
  artifactory_base : String

/-- One `if provided / elif class attribute / elif environment / else raise`
block of `ArtifactoryRepo.__init__`.  The first two guards are Python
truthiness; the environment guard is key *presence*
(`'ARTIFACTORY_USER' in os.environ`). -/
def resolveArtifactoryCredential (explicitVal cached envVal : Option String)
    (msg : String) : Except RepoError String :=
  if pyTruthy explicitVal then .ok (explicitVal.getD "")
  else if pyTruthy cached then .ok (cached.getD "")
  else
    match envVal with
    | some v => .ok v
    | none => .error (.missingCredentials msg)

/-- `ArtifactoryRepo.__init__` (imagerepo.py lines 46-82), reduced to its
credential resolution.  The returned cache is the input cache unchanged: in
the environment branch the source executes `self._artifactory_user = ...`,
which creates an *instance* attribute; the class attribute that a later
instance reads through `self._artifactory_user` is never reassigned. -/
def ArtifactoryRepo.init
    (artifactory_user artifactory_key artifactory_base : Option String)
    (cache : ArtifactoryCache) (env : ArtifactoryEnv) :
    Except RepoError (ArtifactoryCreds × ArtifactoryCache) := do
  let u ← resolveArtifactoryCredential artifactory_user cache._artifactory_user
      env.user
      "No artifactory user provided or found in ARTIFACTORY_USER environment variable"
  let k ← resolveArtifactoryCredential artifactory_key cache._artifactory_key
      env.key
      "No artifactory key provided or found in ARTIFACTORY_KEY environment variable"
  let b ← resolveArtifactoryCredential artifactory_base cache._artifactory_base
      env.base
      "No artifactory base provided or found in ARTIFACTORY_BASE environment variable"
  return (⟨u, k, b⟩, cache)

/-- `ArtifactoryRepo._get_artifactory_repo` (imagerepo.py lines 88-94):
`p = '/'.join(repo.split('/')[1:])`, `r = repo.split('.')[0]`,
result `'{}/{}'.format(r, p)`. -/
def ArtifactoryRepo.get_artifactory_repo (img : Image) : String :=
  let p := String.intercalate "/" ((pySplit img.image_repo '/').drop 1)
  let r := (pySplit img.image_repo '.').headD ""
  r ++ "/" ++ p

/-- The path `ArtifactoryRepo._get_raw_image_digest` stats (lines 97-103). -/
def ArtifactoryRepo.manifestPath (base : String) (img : Image) : String :=
  String.intercalate "/"
    [base, ArtifactoryRepo.get_artifactory_repo img, img.image_name, img.tag,
     "manifest.json"]

/-- The path `ArtifactoryRepo._get_raw_manifest_list_digest` stats
(lines 116-122). -/
def ArtifactoryRepo.listManifestPath (base : String) (img : Image) : String :=
  String.intercalate "/"
    [base, ArtifactoryRepo.get_artifactory_repo img, img.image_name, img.tag,
     "list.manifest.json"]

/-- `ArtifactoryRepo._get_raw_image_digest` outcome given the stat result:
the hash, or `ManifestNotFound` wrapping the `FileNotFoundError`. -/
def ArtifactoryRepo.get_raw_image_digest (stat : ArtifactoryStat) :
    Except RepoError String :=
  match stat with
  | .ok h => .ok h
  | .error e => .error (.manifestNotFound e)

/-- `ArtifactoryRepo.get_image_digest`:
`'sha256:{}'.format(self._get_raw_image_digest())`. -/
def ArtifactoryRepo.get_image_digest (stat : ArtifactoryStat) :
    Except RepoError String :=
  (ArtifactoryRepo.get_raw_image_digest stat).map (fun h => "sha256:" ++ h)

/-- `ArtifactoryRepo._get_raw_manifest_list_digest` outcome given the stat
result on `list.manifest.json`. -/
def ArtifactoryRepo.get_raw_manifest_list_digest (stat : ArtifactoryStat) :
    Except RepoError String :=
  match stat with
  | .ok h => .ok h
  | .error e => .error (.manifestListNotFound e)

/-- `ArtifactoryRepo.get_manifest_list_digest`:
`'sha256:{}'.format(self._get_raw_manifest_list_digest())`. -/
def ArtifactoryRepo.get_manifest_list_digest (stat : ArtifactoryStat) :
    Except RepoError String :=
  (ArtifactoryRepo.get_raw_manifest_list_digest stat).map
    (fun h => "sha256:" ++ h)

/-- A parsed manifest(-list) JSON document, reduced to the only field the
module reads from it. -/
structure ManifestListDoc where
  mediaType : String

/-- Result of `list_path.open()` in `ArtifactoryRepo.get_raw_manifest_list`
(lines 148-154): parsed content, or the text of the `FileNotFoundError` /
`RuntimeError` raised by the open. -/
inductive ArtifactoryOpen where
  | content (doc : ManifestListDoc)
  | fileNotFound (e : String)
  | runtimeError (e : String)

/-- `ArtifactoryRepo.get_raw_manifest_list` (lines 130-154): both open
failures map to `ManifestListNotFound`; success returns the parsed JSON. -/
def ArtifactoryRepo.get_raw_manifest_list (o : ArtifactoryOpen) :
    Except RepoError ManifestListDoc :=
  match o with
  | .content d => .ok d
  | .fileNotFound e => .error (.manifestListNotFound e)
  | .runtimeError e => .error (.manifestListNotFound e)

/-- One entry of the `tags` list in a Quay tag-query response, reduced to the
two fields `QuayRepo._get_digest` reads. -/
structure QuayTag where
  is_manifest_list : Bool
  manifest_digest : String
deriving DecidableEq, Repr

/-- A Quay HTTP response as `QuayRepo._get_digest` consumes it: status code,
body text, and the parsed `resp.json()['tags']` list. -/
structure QuayResponse where
  status_code : Nat
  text : String
  tags : List QuayTag

/-- `QuayRepo._get_digest` (imagerepo.py lines 168-199).  `Except` errors are
the raised exceptions; `.ok (some d)` is `return d`; `.ok none` is the method
falling off the end of the `for` loop (empty `tags`) and returning `None`.
The Python message of the more-than-one-tag `Exception` also interpolates the
repr of the tag list; the embedding keeps only its fixed part, which affects
no control flow. -/
def QuayRepo.get_digest (tag : String) (manifest_list : Bool)
    (resp : QuayResponse) : Except RepoError (Option String) :=
  if resp.status_code == 403 then .error (.missingCredentials resp.text)
  else if resp.status_code == 404 then
    if manifest_list then .error (.manifestListNotFound resp.text)
    else .error (.manifestNotFound resp.text)
  else if !(resp.status_code == 200) then .error (.genericException resp.text)
  else if resp.tags.length > 1 then
    .error (.genericException ("Expected 1 tag, found " ++ toString resp.tags.length))
  else
    match resp.tags with
    | [] => .ok none
    | t :: _ =>
      if t.is_manifest_list == manifest_list then .ok (some t.manifest_digest)
      else if manifest_list then
        .error (.manifestListNotFound ("Tag " ++ tag ++ " is not manifest list"))
      else
        .error (.manifestNotFound ("Tag " ++ tag ++ " is a manifest list"))

/-- `QuayRepo.get_image_digest`: `self._get_digest(manifest_list=False)`. -/
def QuayRepo.get_image_digest (tag : String) (resp : QuayResponse) :
    Except RepoError (Option String) :=
  QuayRepo.get_digest tag false resp

/-- `QuayRepo.get_manifest_list_digest`:
`self._get_digest(manifest_list=True)`. -/
def QuayRepo.get_manifest_list_digest (tag : String) (resp : QuayResponse) :
    Except RepoError (Option String) :=
  QuayRepo.get_digest tag true resp

/-- The optional Docker credentials held by a `DockerRepo` instance after
`__init__` (explicit argument, else environment, else `None`). -/
structure DockerCreds where
  docker_user : Option String
  docker_key : Option String

/-- The command string built by `DockerRepo.get_raw_manifest_list`
(imagerepo.py lines 234-238): credentials are embedded only when both key
and user are not `None` (with a space after `--creds`), then every
occurrence of `'docker.io/'` in the whole command is removed by
`str.replace`. -/
def DockerRepo.raw_manifest_list_command (c : DockerCreds) (img : Image) :
    String :=
  let cmd :=
    if c.docker_key.isSome && c.docker_user.isSome then
      "skopeo inspect --creds " ++ c.docker_user.getD "" ++ ":" ++
        c.docker_key.getD "" ++ " --override-os linux --raw docker://" ++
        img.image
    else
      "skopeo inspect --override-os linux --raw docker://" ++ img.image
  pyReplace cmd "docker.io/" ""

/-- The first command string built by `DockerRepo._get_digest` (lines
252-256): as in the source, there is no space after `--creds`, and no
`'docker.io/'` stripping is applied. -/
def DockerRepo.digest_inspect_command (c : DockerCreds) (img : Image) :
    String :=
  if c.docker_key.isSome && c.docker_user.isSome then
    "skopeo inspect --creds" ++ c.docker_user.getD "" ++ ":" ++
      c.docker_key.getD "" ++ " --override-os linux --raw docker://" ++
      img.image
  else
    "skopeo inspect --override-os linux --raw docker://" ++ img.image

/-- The hashing pipeline command of `DockerRepo._get_digest` (lines 261-264),
used on the manifest-list branch; again no space after `--creds` and no
stripping. -/
def DockerRepo.sha_command (c : DockerCreds) (img : Image) : String :=
  if c.docker_key.isSome && c.docker_user.isSome then
    "skopeo inspect --creds" ++ c.docker_user.getD "" ++ ":" ++
      c.docker_key.getD "" ++ " --override-os linux --raw docker://" ++
      img.image ++ " | shasum -a 256"
  else
    "skopeo inspect --override-os linux --raw docker://" ++ img.image ++
      " | shasum -a 256"

/-- The resolved (non-raw) inspect command of `DockerRepo._get_digest`
(lines 272-275); no space after `--creds`, no stripping. -/
def DockerRepo.resolved_inspect_command (c : DockerCreds) (img : Image) :
    String :=
  if c.docker_key.isSome && c.docker_user.isSome then
    "skopeo inspect --creds" ++ c.docker_user.getD "" ++ ":" ++
      c.docker_key.getD "" ++ " --override-os linux docker://" ++ img.image
  else
    "skopeo inspect --override-os linux docker://" ++ img.image

/-- The resolved skopeo inspect output, reduced to the `Digest` field
`DockerRepo._get_digest` returns. -/
structure SkopeoInspectOut where
  Digest : String

/-- `DockerRepo._get_digest` (imagerepo.py lines 252-281) given the parsed
backend outputs: `rawOut` is the JSON of the first (raw) inspect, `shaStdout`
the decoded stdout of the shasum pipeline, `inspectOut` the JSON of the
resolved inspect.  `.ok none` models the `pass` branch (manifest list found
but a single-image digest requested): the method falls through and returns
`None`. -/
def DockerRepo.get_digest (manifest_list : Bool) (rawOut : ManifestListDoc)
    (shaStdout : String) (inspectOut : SkopeoInspectOut) :
    Except RepoError (Option String) :=
  if pyIn "manifest.list" rawOut.mediaType then
    if manifest_list then
      .ok (some ("sha256:" ++ ((pySplit shaStdout ' ').headD "")))
    else
      .ok none
  else
    if manifest_list then .error (.manifestListNotFound "Manifest List does not exist")
    else .ok (some inspectOut.Digest)

/-- `DockerRepo.get_image_digest`: `self._get_digest(manifest_list=False)`. -/
def DockerRepo.get_image_digest (rawOut : ManifestListDoc)
    (shaStdout : String) (inspectOut : SkopeoInspectOut) :
    Except RepoError (Option String) :=
  DockerRepo.get_digest false rawOut shaStdout inspectOut

/-- `DockerRepo.get_manifest_list_digest`:
`self._get_digest(manifest_list=True)`. -/
def DockerRepo.get_manifest_list_digest (rawOut : ManifestListDoc)
    (shaStdout : String) (inspectOut : SkopeoInspectOut) :
    Except RepoError (Option String) :=
  DockerRepo.get_digest true rawOut shaStdout inspectOut

/-- `DockerRepo.get_raw_manifest_list` (imagerepo.py lines 233-249) given the
parsed skopeo output; `none` models any failure inside the `try` block
(subprocess failure, JSON parse failure, missing `mediaType` key).  The inner
`raise ManifestListNotFound(out)` is itself caught by the blanket
`except Exception` and replaced, so every failure carries the fixed text. -/
def DockerRepo.get_raw_manifest_list (skopeoOut : Option ManifestListDoc) :
    Except RepoError ManifestListDoc :=
  match skopeoOut with
  | some d =>
    if pyIn "manifest.list" d.mediaType then .ok d
    else .error (.manifestListNotFound "error with skopeo command")
  | none => .error (.manifestListNotFound "error with skopeo command")

/-- `ImageRepo.get_raw_manifest_list` (imagerepo.py lines 30-38) delegating
to the selected adapter.  `QuayRepo` (lines 156-203) defines no
`get_raw_manifest_list` method, so on a Quay-classified image the attribute
lookup `self.image_repo.get_raw_manifest_list` raises `AttributeError`. -/
def ImageRepo.get_raw_manifest_list (kind : RepoKind)
    (artifactoryOpen : ArtifactoryOpen) (dockerOut : Option ManifestListDoc) :
    Except RepoError ManifestListDoc :=
  match kind with
  | .artifactory => ArtifactoryRepo.get_raw_manifest_list artifactoryOpen
  | .quay =>
    .error (.attributeError "QuayRepo object has no attribute get_raw_manifest_list")
  | .docker => DockerRepo.get_raw_manifest_list dockerOut

/-- Whether a character is a lowercase hexadecimal digit (`0-9a-f`). -/
def isLowerHexDigit (c : Char) : Bool :=
  (decide (48 ≤ c.toNat) && decide (c.toNat ≤ 57)) ||
    (decide (97 ≤ c.toNat) && decide (c.toNat ≤ 102))

/-- The `DigestResult` shape of the specification: `sha256:` followed by
exactly 64 lowercase hex characters. -/
def isSha256Digest (s : String) : Bool :=
  pyStartswith s "sha256:" && decide ((s.data.drop 7).length = 64) &&
    (s.data.drop 7).all isLowerHexDigit

/-! ## Supporting lemmas -/

/-- Strings with equal character data are equal. -/
theorem strExt {s t : String} (h : s.data = t.data) : s = t := by
  cases s; cases t; exact congrArg String.mk h

/-- `isPrefixList` decides `List.IsPrefix`. -/
theorem isPrefixList_iff : ∀ n l : List Char, isPrefixList n l = true ↔ n <+: l
  | [], l => by simp [isPrefixList]
  | a :: as, [] => by simp [isPrefixList]
  | a :: as, b :: bs => by
    show (a == b && isPrefixList as bs) = true ↔ _
    simp only [Bool.and_eq_true, beq_iff_eq, List.cons_prefix_cons,
      isPrefixList_iff as bs]

/-- `isInfixList` decides `List.IsInfix`. -/
theorem isInfixList_iff : ∀ n l : List Char, isInfixList n l = true ↔ n <:+: l
  | n, [] => by
    simp [isInfixList, isPrefixList_iff]
  | n, c :: rest => by
    simp [isInfixList, isPrefixList_iff, isInfixList_iff n rest,
      List.infix_cons_iff]

/-- `pyIn` decides substring containment on the character data. -/
theorem pyIn_iff (needle hay : String) :
    pyIn needle hay = true ↔ needle.data <:+: hay.data := by
  simp [pyIn, isInfixList_iff]

/-- With fuel at least the input length, `replaceList` with a non-empty
pattern is independent of the fuel: the fuel bound used by `pyReplace` is
exact, so the fuel is an implementation device, not a semantic one. -/
theorem replaceList_fuel_eq (old new : List Char) (hold : old ≠ []) :
    ∀ (n : Nat) (l : List Char) (f g : Nat), l.length ≤ n → l.length ≤ f →
      l.length ≤ g → replaceList old new f l = replaceList old new g l := by
  intro n
  induction n with
  | zero =>
    intro l f g hn _ _
    have hl : l = [] := List.eq_nil_of_length_eq_zero (Nat.le_zero.mp hn)
    subst hl
    cases f <;> cases g <;> simp [replaceList]
  | succ n ih =>
    intro l f g hn hf hg
    cases l with
    | nil => cases f <;> cases g <;> simp [replaceList]
    | cons c rest =>
      cases f with
      | zero => exact absurd hf (by simp)
      | succ f =>
        cases g with
        | zero => exact absurd hg (by simp)
        | succ g =>
          have hrest_n : rest.length ≤ n := Nat.le_of_succ_le_succ hn
          have hrest_f : rest.length ≤ f := Nat.le_of_succ_le_succ hf
          have hrest_g : rest.length ≤ g := Nat.le_of_succ_le_succ hg
          have hdrop : ((c :: rest).drop old.length).length ≤ rest.length := by
            have h1 : 1 ≤ old.length := by
              cases old with
              | nil => exact absurd rfl hold
              | cons _ _ => simp
            simp only [List.length_drop, List.length_cons]
            omega
          simp only [replaceList]
          by_cases hpre : isPrefixList old (c :: rest) = true
          · simp only [hpre, if_true]
            exact congrArg (new ++ ·)
              (ih _ f g (le_trans hdrop hrest_n) (le_trans hdrop hrest_f)
                (le_trans hdrop hrest_g))
          · simp only [eq_false_of_ne_true hpre, if_false]
            exact congrArg (c :: ·) (ih rest f g hrest_n hrest_f hrest_g)

/-! ## C1: facade backend selection -/

/-- C1 counterexample: the host `quay.io/artifactory` starts with the
hosted-registry prefix `quay.io/`, yet the facade selects the Artifact-Store
adapter, because `ImageRepo.__init__` evaluates the `artifactory` substring
test before the prefix tests; the prefix-before-substring order asserted by
the claim does not hold. -/
theorem selection_substring_checked_first :
    pyStartswith "quay.io/artifactory" "quay.io/" = true ∧
    ImageRepo.selectRepo ⟨"quay.io/artifactory", "img", "v1",
      "quay.io/artifactory/img:v1"⟩ = .ok .artifactory ∧
    RepoKind.artifactory ≠ RepoKind.quay :=
  ⟨by decide, rfl, by decide⟩

/-- C1 (amended): the facade evaluates the looser `artifactory` substring
test first; the `quay.io/` and `docker.io` prefix tests apply only to hosts
not containing the marker, and any remaining host fails with
`RepoTypeNotImplemented`.  A host that both starts with a known prefix and
contains the marker substring is classified as Artifact-Store. -/
theorem selectRepo_selection_order (img : Image) :
    (pyIn "artifactory" img.image_repo = true →
      ImageRepo.selectRepo img = .ok .artifactory) ∧
    (pyIn "artifactory" img.image_repo = false →
      pyStartswith img.image_repo "quay.io/" = true →
      ImageRepo.selectRepo img = .ok .quay) ∧
    (pyIn "artifactory" img.image_repo = false →
      pyStartswith img.image_repo "quay.io/" = false →
      pyStartswith img.image_repo "docker.io" = true →
      ImageRepo.selectRepo img = .ok .docker) ∧
    (pyIn "artifactory" img.image_repo = false →
      pyStartswith img.image_repo "quay.io/" = false →
      pyStartswith img.image_repo "docker.io" = false →
      ImageRepo.selectRepo img = .error (.repoTypeNotImplemented
        ("Unknown repository type for image " ++ img.image))) := by
  refine ⟨fun h1 => ?_, fun h1 h2 => ?_, fun h1 h2 h3 => ?_,
    fun h1 h2 h3 => ?_⟩ <;>
      simp [ImageRepo.selectRepo, *]

/-- `selectRepo_selection_order` applied to a concrete hosted-registry
image. -/
theorem selectRepo_selection_order_witness :
    ImageRepo.selectRepo ⟨"quay.io/opencloudio", "img", "v1",
      "quay.io/opencloudio/img:v1"⟩ = .ok .quay :=
  (selectRepo_selection_order _).2.1 (by decide) (by decide)

/-! ## C4: Artifactory credential precedence -/

/-- A credential source triple that resolves without raising: explicit value
truthy, or cached value truthy, or environment key present. -/
def credResolvable (explicitVal cached envVal : Option String) : Bool :=
  pyTruthy explicitVal || pyTruthy cached || envVal.isSome

/-- A truthy explicit value wins. -/
theorem resolveArtifactoryCredential_explicit (e c v : Option String)
    (m : String) (h : pyTruthy e = true) :
    resolveArtifactoryCredential e c v m = .ok (e.getD "") := by
  simp [resolveArtifactoryCredential, h]

/-- Without a truthy explicit value, a truthy cached value wins. -/
theorem resolveArtifactoryCredential_cached (e c v : Option String)
    (m : String) (h1 : pyTruthy e = false) (h2 : pyTruthy c = true) :
    resolveArtifactoryCredential e c v m = .ok (c.getD "") := by
  simp [resolveArtifactoryCredential, h1, h2]

/-- Without truthy explicit and cached values, a present environment key is
used, even when its value is the empty string. -/
theorem resolveArtifactoryCredential_env (e c : Option String) (s : String)
    (m : String) (h1 : pyTruthy e = false) (h2 : pyTruthy c = false) :
    resolveArtifactoryCredential e c (some s) m = .ok s := by
  simp [resolveArtifactoryCredential, h1, h2]

/-- With no source available, resolution fails with `MissingCredentials`
carrying the given message. -/
theorem resolveArtifactoryCredential_missing (e c : Option String)
    (m : String) (h1 : pyTruthy e = false) (h2 : pyTruthy c = false) :
    resolveArtifactoryCredential e c none m =
      .error (.missingCredentials m) := by
  simp [resolveArtifactoryCredential, h1, h2]

/-- A resolvable source triple always yields some value. -/
theorem resolveArtifactoryCredential_ok (e c v : Option String) (m : String)
    (h : credResolvable e c v = true) :
    ∃ s, resolveArtifactoryCredential e c v m = .ok s := by
  unfold credResolvable at h
  unfold resolveArtifactoryCredential
  by_cases h1 : pyTruthy e = true
  · exact ⟨e.getD "", by simp [h1]⟩
  · by_cases h2 : pyTruthy c = true
    · exact ⟨c.getD "", by simp [h1, h2]⟩
    · cases hv : v with
      | some s => exact ⟨s, by simp [h1, h2]⟩
      | none =>
        rw [Bool.not_eq_true] at h1 h2
        rw [hv] at h
        simp [h1, h2] at h

/-- C4: for each Artifactory credential (user, key, base): with explicit,
cached and environment values all set, the explicit value is used; with only
cached and environment values set, the cached value is used; with no source
set, construction raises `MissingCredentials` naming that credential's
environment variable.  (Hypotheses `credResolvable ...` state that the other
credentials resolve, so that the construction reaches the credential under
scrutiny.) -/
theorem artifactory_credential_precedence
    (eu ek eb : Option String) (cache : ArtifactoryCache)
    (env : ArtifactoryEnv) :
    (pyTruthy eu = true → pyTruthy cache._artifactory_user = true →
      env.user.isSome = true →
      credResolvable ek cache._artifactory_key env.key = true →
      credResolvable eb cache._artifactory_base env.base = true →
      ∃ r, ArtifactoryRepo.init eu ek eb cache env = .ok r ∧
        r.1.artifactory_user = eu.getD "") ∧
    (pyTruthy eu = false → pyTruthy cache._artifactory_user = true →
      env.user.isSome = true →
      credResolvable ek cache._artifactory_key env.key = true →
      credResolvable eb cache._artifactory_base env.base = true →
      ∃ r, ArtifactoryRepo.init eu ek eb cache env = .ok r ∧
        r.1.artifactory_user = cache._artifactory_user.getD "") ∧
    (pyTruthy eu = false → pyTruthy cache._artifactory_user = false →
      env.user = none →
      ArtifactoryRepo.init eu ek eb cache env = .error (.missingCredentials
        "No artifactory user provided or found in ARTIFACTORY_USER environment variable")) ∧
    (pyTruthy ek = true → pyTruthy cache._artifactory_key = true →
      env.key.isSome = true →
      credResolvable eu cache._artifactory_user env.user = true →
      credResolvable eb cache._artifactory_base env.base = true →
      ∃ r, ArtifactoryRepo.init eu ek eb cache env = .ok r ∧
        r.1.artifactory_key = ek.getD "") ∧
    (pyTruthy ek = false → pyTruthy cache._artifactory_key = true →
      env.key.isSome = true →
      credResolvable eu cache._artifactory_user env.user = true →
      credResolvable eb cache._artifactory_base env.base = true →
      ∃ r, ArtifactoryRepo.init eu ek eb cache env = .ok r ∧
        r.1.artifactory_key = cache._artifactory_key.getD "") ∧
    (pyTruthy ek = false → pyTruthy cache._artifactory_key = false →
      env.key = none →
      credResolvable eu cache._artifactory_user env.user = true →
      ArtifactoryRepo.init eu ek eb cache env = .error (.missingCredentials
        "No artifactory key provided or found in ARTIFACTORY_KEY environment variable")) ∧
    (pyTruthy eb = true → pyTruthy cache._artifactory_base = true →
      env.base.isSome = true →
      credResolvable eu cache._artifactory_user env.user = true →
      credResolvable ek cache._artifactory_key env.key = true →
      ∃ r, ArtifactoryRepo.init eu ek eb cache env = .ok r ∧
        r.1.artifactory_base = eb.getD "") ∧
    (pyTruthy eb = false → pyTruthy cache._artifactory_base = true →
      env.base.isSome = true →
      credResolvable eu cache._artifactory_user env.user = true →
      credResolvable ek cache._artifactory_key env.key = true →
      ∃ r, ArtifactoryRepo.init eu ek eb cache env = .ok r ∧
        r.1.artifactory_base = cache._artifactory_base.getD "") ∧
    (pyTruthy eb = false → pyTruthy cache._artifactory_base = false →
      env.base = none →
      credResolvable eu cache._artifactory_user env.user = true →
      credResolvable ek cache._artifactory_key env.key = true →
      ArtifactoryRepo.init eu ek eb cache env = .error (.missingCredentials
        "No artifactory base provided or found in ARTIFACTORY_BASE environment variable")) := by
  refine ⟨?_, ?_, ?_, ?_, ?_, ?_, ?_, ?_, ?_⟩
  · intro h1 _ _ hk hb
    obtain ⟨sk, hsk⟩ := resolveArtifactoryCredential_ok ek
      cache._artifactory_key env.key _ hk
    obtain ⟨sb, hsb⟩ := resolveArtifactoryCredential_ok eb
      cache._artifactory_base env.base _ hb
    refine ⟨(⟨eu.getD "", sk, sb⟩, cache), ?_, rfl⟩
    unfold ArtifactoryRepo.init
    rw [resolveArtifactoryCredential_explicit _ _ _ _ h1, hsk, hsb]
    rfl
  · intro h1 h2 _ hk hb
    obtain ⟨sk, hsk⟩ := resolveArtifactoryCredential_ok ek
      cache._artifactory_key env.key _ hk
    obtain ⟨sb, hsb⟩ := resolveArtifactoryCredential_ok eb
      cache._artifactory_base env.base _ hb
    refine ⟨(⟨cache._artifactory_user.getD "", sk, sb⟩, cache), ?_, rfl⟩
    unfold ArtifactoryRepo.init
    rw [resolveArtifactoryCredential_cached _ _ _ _ h1 h2, hsk, hsb]
    rfl
  · intro h1 h2 h3
    unfold ArtifactoryRepo.init
    rw [h3, resolveArtifactoryCredential_missing _ _ _ h1 h2]
    rfl
  · intro h1 _ _ hu hb
    obtain ⟨su, hsu⟩ := resolveArtifactoryCredential_ok eu
      cache._artifactory_user env.user _ hu
    obtain ⟨sb, hsb⟩ := resolveArtifactoryCredential_ok eb
      cache._artifactory_base env.base _ hb
    refine ⟨(⟨su, ek.getD "", sb⟩, cache), ?_, rfl⟩
    unfold ArtifactoryRepo.init
    rw [hsu, resolveArtifactoryCredential_explicit _ _ _ _ h1, hsb]
    rfl
  · intro h1 h2 _ hu hb
    obtain ⟨su, hsu⟩ := resolveArtifactoryCredential_ok eu
      cache._artifactory_user env.user _ hu
    obtain ⟨sb, hsb⟩ := resolveArtifactoryCredential_ok eb
      cache._artifactory_base env.base _ hb
    refine ⟨(⟨su, cache._artifactory_key.getD "", sb⟩, cache), ?_, rfl⟩
    unfold ArtifactoryRepo.init
    rw [hsu, resolveArtifactoryCredential_cached _ _ _ _ h1 h2, hsb]
    rfl
  · intro h1 h2 h3 hu
    obtain ⟨su, hsu⟩ := resolveArtifactoryCredential_ok eu
      cache._artifactory_user env.user _ hu
    unfold ArtifactoryRepo.init
    rw [hsu, h3, resolveArtifactoryCredential_missing _ _ _ h1 h2]
    rfl
  · intro h1 _ _ hu hk
    obtain ⟨su, hsu⟩ := resolveArtifactoryCredential_ok eu
      cache._artifactory_user env.user _ hu
    obtain ⟨sk, hsk⟩ := resolveArtifactoryCredential_ok ek
      cache._artifactory_key env.key _ hk
    refine ⟨(⟨su, sk, eb.getD ""⟩, cache), ?_, rfl⟩
    unfold ArtifactoryRepo.init
    rw [hsu, hsk, resolveArtifactoryCredential_explicit _ _ _ _ h1]
    rfl
  · intro h1 h2 _ hu hk
    obtain ⟨su, hsu⟩ := resolveArtifactoryCredential_ok eu
      cache._artifactory_user env.user _ hu
    obtain ⟨sk, hsk⟩ := resolveArtifactoryCredential_ok ek
      cache._artifactory_key env.key _ hk
    refine ⟨(⟨su, sk, cache._artifactory_base.getD ""⟩, cache), ?_, rfl⟩
    unfold ArtifactoryRepo.init
    rw [hsu, hsk, resolveArtifactoryCredential_cached _ _ _ _ h1 h2]
    rfl
  · intro h1 h2 h3 hu hk
    obtain ⟨su, hsu⟩ := resolveArtifactoryCredential_ok eu
      cache._artifactory_user env.user _ hu
    obtain ⟨sk, hsk⟩ := resolveArtifactoryCredential_ok ek
      cache._artifactory_key env.key _ hk
    unfold ArtifactoryRepo.init
    rw [hsu, hsk, h3, resolveArtifactoryCredential_missing _ _ _ h1 h2]
    rfl

/-- `artifactory_credential_precedence` at concrete inputs: explicit beats
cached and environment for the user credential. -/
theorem artifactory_credential_precedence_witness :
    ∃ r, ArtifactoryRepo.init (some "u0") (some "k0") (some "b0")
        ⟨some "cu", some "ck", some "cb"⟩
        ⟨some "vu", some "vk", some "vb"⟩ = .ok r ∧
      r.1.artifactory_user = (some "u0").getD "" :=
  (artifactory_credential_precedence (some "u0") (some "k0") (some "b0")
      ⟨some "cu", some "ck", some "cb"⟩
      ⟨some "vu", some "vk", some "vb"⟩).1
    (by decide) (by decide) (by decide) (by decide) (by decide)

/-! ## C5: the process-wide credential cache -/

/-- C5: an adapter constructed with the environment set resolves its
credentials, but the class-level cache it returns is the input cache,
still all `None` — `self._artifactory_user = ...` writes an instance
attribute, never the class attribute — so a second adapter constructed with
no explicit values and no environment raises `MissingCredentials` instead of
reusing the previously resolved values, contradicting both the
specification and the source's own comment that credentials are shared
between instances. -/
theorem artifactory_cache_not_shared :
    (ArtifactoryRepo.init none none none ⟨none, none, none⟩
        ⟨some "alice", some "sekrit", some "artbase"⟩ =
      .ok (⟨"alice", "sekrit", "artbase"⟩, ⟨none, none, none⟩)) ∧
    (ArtifactoryRepo.init none none none ⟨none, none, none⟩
        ⟨none, none, none⟩ =
      .error (.missingCredentials
        "No artifactory user provided or found in ARTIFACTORY_USER environment variable")) :=
  ⟨rfl, rfl⟩

/-! ## C6: Quay responses with zero or many tags -/

/-- C6 counterexample: an HTTP 200 response with an empty `tags` list makes
`QuayRepo._get_digest` fall off the end of its `for` loop and return `None`
for both request kinds — no `ManifestListNotFound` / `ManifestNotFound` is
raised. -/
theorem quay_empty_tags_returns_none :
    QuayRepo.get_digest "v1" true ⟨200, "", []⟩ = .ok none ∧
    QuayRepo.get_digest "v1" false ⟨200, "", []⟩ = .ok none :=
  ⟨rfl, rfl⟩

/-- C6 (amended): on an HTTP 200 response, an empty `tags` list makes the
digest query complete without a digest and without raising (it returns
`None`); a `tags` list with two or more entries raises a generic failure and
never returns a digest taken from one of the entries. -/
theorem quay_zero_or_many_tags (tag : String) (manifest_list : Bool)
    (resp : QuayResponse) (h200 : resp.status_code = 200) :
    (resp.tags = [] →
      QuayRepo.get_digest tag manifest_list resp = .ok none) ∧
    (resp.tags.length > 1 →
      QuayRepo.get_digest tag manifest_list resp = .error (.genericException
        ("Expected 1 tag, found " ++ toString resp.tags.length))) := by
  obtain ⟨sc, txt, tags⟩ := resp
  simp only at h200
  subst h200
  constructor
  · intro h
    simp only at h
    subst h
    rfl
  · intro h
    simp only at h
    simp [QuayRepo.get_digest, h, Nat.ne_of_gt h]

/-- `quay_zero_or_many_tags` at a concrete two-tag response. -/
theorem quay_zero_or_many_tags_witness :
    QuayRepo.get_digest "v2" true
        ⟨200, "ok", [⟨true, "d1"⟩, ⟨false, "d2"⟩]⟩ =
      .error (.genericException "Expected 1 tag, found 2") :=
  (quay_zero_or_many_tags "v2" true
      ⟨200, "ok", [⟨true, "d1"⟩, ⟨false, "d2"⟩]⟩ rfl).2 (by decide)

/-! ## C7: Quay responses with exactly one tag -/

/-- C7: on an HTTP 200 response whose `tags` list has exactly one entry,
`QuayRepo._get_digest` returns the entry's `manifest_digest` when its
`is_manifest_list` flag equals the request kind; otherwise a list request
raises `ManifestListNotFound` and a single-image request raises
`ManifestNotFound`. -/
theorem quay_single_tag (tag txt : String) (t : QuayTag)
    (manifest_list : Bool) :
    (t.is_manifest_list = manifest_list →
      QuayRepo.get_digest tag manifest_list ⟨200, txt, [t]⟩ =
        .ok (some t.manifest_digest)) ∧
    (t.is_manifest_list ≠ manifest_list → manifest_list = true →
      QuayRepo.get_digest tag manifest_list ⟨200, txt, [t]⟩ =
        .error (.manifestListNotFound
          ("Tag " ++ tag ++ " is not manifest list"))) ∧
    (t.is_manifest_list ≠ manifest_list → manifest_list = false →
      QuayRepo.get_digest tag manifest_list ⟨200, txt, [t]⟩ =
        .error (.manifestNotFound
          ("Tag " ++ tag ++ " is a manifest list"))) := by
  refine ⟨fun h => by simp [QuayRepo.get_digest, h], fun h hml => ?_,
    fun h hml => ?_⟩
  · subst hml
    have ht : t.is_manifest_list = false := by simpa using h
    simp [QuayRepo.get_digest, ht]
  · subst hml
    have ht : t.is_manifest_list = true := by simpa using h
    simp [QuayRepo.get_digest, ht]

/-- `quay_single_tag` on the specification's scenario B fixture: a
manifest-list tag queried for the list digest returns its digest; the same
fixture queried for the single-image digest fails with `ManifestNotFound`. -/
theorem quay_single_tag_witness :
    QuayRepo.get_digest "v1" true
        ⟨200, "", [⟨true, "sha256:deadbeef"⟩]⟩ =
      .ok (some "sha256:deadbeef") ∧
    QuayRepo.get_digest "v1" false
        ⟨200, "", [⟨true, "sha256:deadbeef"⟩]⟩ =
      .error (.manifestNotFound "Tag v1 is a manifest list") :=
  ⟨(quay_single_tag "v1" "" ⟨true, "sha256:deadbeef"⟩ true).1 rfl,
   (quay_single_tag "v1" "" ⟨true, "sha256:deadbeef"⟩ false).2.2
     (by decide) rfl⟩

/-! ## C2: digest result shapes -/

/-- C2 counterexample: the Quay adapter returns the backend-supplied
`manifest_digest` verbatim; a backend value that is not of the
`sha256:<64 hex>` form is passed through unvalidated. -/
theorem digest_format_not_validated :
    QuayRepo.get_manifest_list_digest "v1" ⟨200, "", [⟨true, "nothex"⟩]⟩ =
      .ok (some "nothex") ∧
    isSha256Digest "nothex" = false :=
  ⟨rfl, by decide⟩

/-- C2 (amended): successful digests from the Artifactory adapter and the
Docker manifest-list path are `sha256:` prefixed onto the backend-supplied
value; successful digests from the Quay adapter and the Docker single-image
path are the backend-supplied string verbatim.  No adapter validates the
64-lowercase-hex suffix. -/
theorem adapter_digest_shapes (h : String) (tag : String)
    (manifest_list : Bool) (resp : QuayResponse) (raw : ManifestListDoc)
    (shaStdout : String) (insp : SkopeoInspectOut) (d : String) :
    (ArtifactoryRepo.get_image_digest (.ok h) = .ok ("sha256:" ++ h)) ∧
    (ArtifactoryRepo.get_manifest_list_digest (.ok h) =
      .ok ("sha256:" ++ h)) ∧
    (pyStartswith ("sha256:" ++ h) "sha256:" = true) ∧
    (QuayRepo.get_digest tag manifest_list resp = .ok (some d) →
      ∃ t, t ∈ resp.tags ∧ d = t.manifest_digest) ∧
    (DockerRepo.get_digest false raw shaStdout insp = .ok (some d) →
      d = insp.Digest) ∧
    (DockerRepo.get_digest true raw shaStdout insp = .ok (some d) →
      d = "sha256:" ++ ((pySplit shaStdout ' ').headD "")) := by
  refine ⟨rfl, rfl, ?_, ?_, ?_, ?_⟩
  · simp [pyStartswith, String.data, isPrefixList]
  · intro hq
    obtain ⟨sc, txt, tags⟩ := resp
    simp only [QuayRepo.get_digest] at hq
    by_cases h1 : (sc == 403) = true
    · rw [if_pos h1] at hq; exact absurd hq (by simp)
    · rw [if_neg h1] at hq
      by_cases h2 : (sc == 404) = true
      · rw [if_pos h2] at hq
        by_cases hml : manifest_list = true <;> simp [hml] at hq
      · rw [if_neg h2] at hq
        by_cases h3 : (!(sc == 200)) = true
        · rw [if_pos h3] at hq; exact absurd hq (by simp)
        · rw [if_neg h3] at hq
          by_cases h4 : tags.length > 1
          · rw [if_pos h4] at hq; exact absurd hq (by simp)
          · rw [if_neg h4] at hq
            cases tags with
            | nil => exact absurd hq (by simp)
            | cons t rest =>
              by_cases h5 : (t.is_manifest_list == manifest_list) = true
              · simp [h5] at hq
                exact ⟨t, by simp, hq.symm⟩
              · by_cases hml : manifest_list = true
                · have ht : t.is_manifest_list = false := by
                    subst hml; simpa using h5
                  simp [hml, ht] at hq
                · have hml' : manifest_list = false := by simpa using hml
                  have ht : t.is_manifest_list = true := by
                    subst hml'; simpa using h5
                  simp [hml', ht] at hq
  · intro hd
    simp only [DockerRepo.get_digest] at hd
    by_cases hm : pyIn "manifest.list" raw.mediaType = true
    · simp [hm] at hd
    · simp [hm] at hd
      exact hd.symm
  · intro hd
    simp only [DockerRepo.get_digest] at hd
    by_cases hm : pyIn "manifest.list" raw.mediaType = true
    · simp [hm] at hd
      simpa using hd.symm
    · simp [hm] at hd

/-- `adapter_digest_shapes` at a concrete Quay fixture: the returned digest
is the response's own `manifest_digest` value. -/
theorem adapter_digest_shapes_witness :
    ∃ t, t ∈ ([⟨true, "digest1"⟩] : List QuayTag) ∧
      "digest1" = QuayTag.manifest_digest t :=
  (adapter_digest_shapes "aa" "v1" true ⟨200, "", [⟨true, "digest1"⟩]⟩
      ⟨"m"⟩ "s" ⟨"D"⟩ "digest1").2.2.2.1 rfl

/-! ## C3: totality of the digest operations -/

/-- C3: the claim that every digest call either returns a digest or raises a
typed failure is contradicted by `DockerRepo._get_digest`: when the raw
inspect reports a manifest-list media type and the caller asked for the
single-image digest, the `pass` branch completes with `None` — no digest and
no exception.  (The Quay adapter's empty-`tags` path, see
`quay_empty_tags_returns_none` under C6, behaves the same way.) -/
theorem docker_single_digest_on_manifest_list_returns_none :
    DockerRepo.get_image_digest
        ⟨"application/vnd.docker.distribution.manifest.list.v2+json"⟩
        "deadbeef -" ⟨"sha256:aaa"⟩ = .ok none :=
  rfl

/-! ## C8: Artifactory lookup paths -/

/-- The single-image lookup path exactly as the claim words it: `base` +
`/` + (substring of `repositoryHost` before its first `.`) + `/` +
(everything after the first `/`-separated segment of `repositoryHost`) +
`/` + `imageName` + `/` + `tag` + `/manifest.json`. -/
def claimManifestPath (base : String) (img : Image) : String :=
  base ++ "/" ++ ((pySplit img.image_repo '.').headD "") ++ "/" ++
    String.intercalate "/" ((pySplit img.image_repo '/').drop 1) ++ "/" ++
    img.image_name ++ "/" ++ img.tag ++ "/manifest.json"

/-- The manifest-list lookup path as the claim words it: the same formula
with `list.manifest.json` as the final segment. -/
def claimListManifestPath (base : String) (img : Image) : String :=
  base ++ "/" ++ ((pySplit img.image_repo '.').headD "") ++ "/" ++
    String.intercalate "/" ((pySplit img.image_repo '/').drop 1) ++ "/" ++
    img.image_name ++ "/" ++ img.tag ++ "/list.manifest.json"

/-- C8: the paths built by `_get_raw_image_digest` and
`_get_raw_manifest_list_digest` equal the claim's formulas, for every base
and image reference. -/
theorem artifactory_lookup_paths (base : String) (img : Image) :
    ArtifactoryRepo.manifestPath base img = claimManifestPath base img ∧
    ArtifactoryRepo.listManifestPath base img =
      claimListManifestPath base img := by
  constructor <;>
  · apply strExt
    simp [ArtifactoryRepo.manifestPath, ArtifactoryRepo.listManifestPath,
      claimManifestPath, claimListManifestPath,
      ArtifactoryRepo.get_artifactory_repo, String.intercalate,
      String.intercalate.go, String.data_append, String.data]

/-! ## C9: Docker command construction -/

/-- C9 counterexample: for a `docker.io/`-prefixed image reference with no
credentials, the `_get_digest` inspect command still contains `docker.io/`
(no stripping is applied there), while the `get_raw_manifest_list` command
has it stripped. -/
theorem docker_digest_command_not_stripped :
    pyIn "docker.io/" (DockerRepo.digest_inspect_command ⟨none, none⟩
      ⟨"docker.io", "library/ubuntu", "latest",
        "docker.io/library/ubuntu:latest"⟩) = true ∧
    pyIn "docker.io/" (DockerRepo.raw_manifest_list_command ⟨none, none⟩
      ⟨"docker.io", "library/ubuntu", "latest",
        "docker.io/library/ubuntu:latest"⟩) = false := by
  constructor <;> decide

/-- C9 (amended): every Docker inspect invocation embeds credentials exactly
when both user and key are not `None`; the hub-host prefix `docker.io/` is
removed (every occurrence, from the whole command string) only in the
`get_raw_manifest_list` invocation, while the `_get_digest` commands carry
the image reference unmodified. -/
theorem docker_command_construction (c : DockerCreds) (img : Image)
    (u k : String) :
    (c.docker_user = none ∨ c.docker_key = none →
      DockerRepo.raw_manifest_list_command c img =
        pyReplace ("skopeo inspect --override-os linux --raw docker://" ++
          img.image) "docker.io/" "" ∧
      DockerRepo.digest_inspect_command c img =
        "skopeo inspect --override-os linux --raw docker://" ++ img.image ∧
      DockerRepo.sha_command c img =
        "skopeo inspect --override-os linux --raw docker://" ++ img.image ++
          " | shasum -a 256" ∧
      DockerRepo.resolved_inspect_command c img =
        "skopeo inspect --override-os linux docker://" ++ img.image) ∧
    (c = ⟨some u, some k⟩ →
      DockerRepo.digest_inspect_command c img =
        "skopeo inspect --creds" ++ u ++ ":" ++ k ++
          " --override-os linux --raw docker://" ++ img.image ∧
      pyIn u (DockerRepo.digest_inspect_command c img) = true ∧
      pyIn k (DockerRepo.digest_inspect_command c img) = true ∧
      DockerRepo.raw_manifest_list_command c img =
        pyReplace ("skopeo inspect --creds " ++ u ++ ":" ++ k ++
          " --override-os linux --raw docker://" ++ img.image)
          "docker.io/" "") := by
  constructor
  · intro hmiss
    have hc : (c.docker_key.isSome && c.docker_user.isSome) = false := by
      rcases hmiss with hm | hm <;> simp [hm]
    simp [DockerRepo.raw_manifest_list_command,
      DockerRepo.digest_inspect_command, DockerRepo.sha_command,
      DockerRepo.resolved_inspect_command, hc]
  · intro hcreds
    subst hcreds
    refine ⟨by simp [DockerRepo.digest_inspect_command], ?_, ?_,
      by simp [DockerRepo.raw_manifest_list_command]⟩
    · rw [pyIn_iff]
      refine ⟨"skopeo inspect --creds".data,
        (":" ++ k ++ " --override-os linux --raw docker://" ++
          img.image).data, ?_⟩
      simp [DockerRepo.digest_inspect_command, String.data_append,
        List.append_assoc]
    · rw [pyIn_iff]
      refine ⟨("skopeo inspect --creds" ++ u ++ ":").data,
        (" --override-os linux --raw docker://" ++ img.image).data, ?_⟩
      simp [DockerRepo.digest_inspect_command, String.data_append,
        List.append_assoc]

/-- `docker_command_construction` at concrete credentials: the user name is
embedded in the digest inspect command. -/
theorem docker_command_construction_witness :
    pyIn "bob" (DockerRepo.digest_inspect_command ⟨some "bob", some "pw"⟩
      ⟨"docker.io", "library/app", "1",
        "docker.io/library/app:1"⟩) = true :=
  ((docker_command_construction ⟨some "bob", some "pw"⟩
      ⟨"docker.io", "library/app", "1", "docker.io/library/app:1"⟩
      "bob" "pw").2 rfl).2.1

/-! ## C10: raw manifest list through the facade on a Quay image -/

/-- C10: when the facade classifies an image as Quay, the delegated
`get_raw_manifest_list` call fails with an `AttributeError`, which is not
one of the module's shared error-taxonomy kinds, whatever the backend state
is. -/
theorem quay_facade_raw_manifest_list_attribute_error (img : Image)
    (k : RepoKind) (a : ArtifactoryOpen) (d : Option ManifestListDoc)
    (hart : pyIn "artifactory" img.image_repo = false)
    (hq : pyStartswith img.image_repo "quay.io/" = true)
    (hsel : ImageRepo.selectRepo img = .ok k) :
    ImageRepo.get_raw_manifest_list k a d = .error (.attributeError
      "QuayRepo object has no attribute get_raw_manifest_list") ∧
    isTaxonomyKind (.attributeError
      "QuayRepo object has no attribute get_raw_manifest_list") = false := by
  have hk : k = RepoKind.quay := by
    simp [ImageRepo.selectRepo, hart, hq] at hsel
    exact hsel.symm
  subst hk
  exact ⟨rfl, rfl⟩

/-- `quay_facade_raw_manifest_list_attribute_error` at a concrete Quay
image and concrete backend states. -/
theorem quay_facade_raw_manifest_list_attribute_error_witness :
    ImageRepo.get_raw_manifest_list .quay (.fileNotFound "e") none =
      .error (.attributeError
        "QuayRepo object has no attribute get_raw_manifest_list") ∧
    isTaxonomyKind (.attributeError
      "QuayRepo object has no attribute get_raw_manifest_list") = false :=
  quay_facade_raw_manifest_list_attribute_error
    ⟨"quay.io/opencloudio", "img", "v1", "quay.io/opencloudio/img:v1"⟩
    .quay (.fileNotFound "e") none (by decide) (by decide) rfl
